import Mathlib

/-!
A shallow embedding of the Snap Operations Facade in src/routes/snaps.js.

Each facade operation is a pure Lean function of the facade state, the caller
arguments, and oracle parameters standing for what the transport client answers
on each of its at most two network calls. An operation returns the list of
requests it handed to the transport client, in order, together with an outcome:
a synchronous throw, an asynchronous failure (callback error or promise
rejection), or a success value.
-/

/-- A point in time (a JS Date), measured in milliseconds since the epoch. -/
abbrev Date := Nat

/-- Modelled from the spec: StringUtils (src/lib/string-utils.js, not under src/)
produces a wire-format timestamp from a point in time; modelled by the numeric
value the wire format denotes. -/
def StringUtils.timestampFrom (d : Date) : Nat := d

/-- Modelled from the spec: StringUtils (src/lib/string-utils.js, not under src/)
generates a fresh media identifier scoped to a username; modelled as a pure
function of the username. -/
def StringUtils.mediaIdentifier (username : String) : String :=
  username ++ "-media-id"

/-- JavaScript ToInt32 of a nonnegative integer, the meaning of the coercion
written as bitwise-or with zero in the source: reduce modulo 2^32 and
reinterpret the residue as a signed 32-bit integer. -/
def jsToInt32 (n : Nat) : Int :=
  if n % 2 ^ 32 < 2 ^ 31 then ((n % 2 ^ 32 : Nat) : Int)
  else ((n % 2 ^ 32 : Nat) : Int) - 2 ^ 32

/-- Modelled from the spec: the endpoint table (src/lib/constants.js, not under
src/) is a fixed mapping from logical operation name to URL path, treated as
configuration. -/
def constants.endpoints.snaps.send : String := "/loq/send"

/-- Modelled from the spec: endpoint table entry for media upload. -/
def constants.endpoints.snaps.upload : String := "/bq/upload"

/-- Modelled from the spec: endpoint table entry for loading snap media. -/
def constants.endpoints.snaps.loadBlob : String := "/bq/blob"

/-- Modelled from the spec: endpoint table entry for view acknowledgements. -/
def constants.endpoints.update.snaps : String := "/bq/update_snaps"

/-- Modelled from the spec: endpoint table entry for the location filter query. -/
def constants.endpoints.misc.locationData : String := "/loq/loc_data"

/-- Modelled from the spec: the screenshot status code in the constants table
(src/lib/constants.js, not under src/); the particular value is configuration. -/
def constants.SnapStatus.Screenshot : Int := 3

/-- Modelled from the spec: the media-kind code for images. -/
def constants.MediaKind.Image.value : Int := 0

/-- Modelled from the spec: the media-kind code for videos. -/
def constants.MediaKind.Video.value : Int := 1

/-- Modelled from the spec: the client-auth-token header name. -/
def constants.headers.clientAuthToken : String := "X-Snapchat-Client-Auth-Token"

/-- Modelled from the spec: the content-type header name. -/
def constants.headers.contentType : String := "Content-Type"

/-- Modelled from the spec: the fixed multipart boundary string. -/
def constants.core.boundary : String := "Boundary+0xSnapBoundary"

/-- Errors surfaced by the facade, following the taxonomy of the error-handling
design: malformed caller input, a JS runtime type error, a response the layer
cannot parse, and opaque transport-level failures. -/
inductive JsError where
  | invalidArgument (msg : String)
  | typeError (msg : String)
  | parseError (msg : String)
  | transport (code : Nat)
deriving DecidableEq

/-- One ephemeral message, referenced client-side by its identifier. -/
structure Snap where
  identifier : String
deriving DecidableEq

/-- An SKBlob: opaque binary payload plus an image/video kind tag. -/
structure SKBlob where
  isImage : Bool
  data : List Nat
deriving DecidableEq

/-- A JS value passed where an SKBlob is expected: either an actual SKBlob
instance, or some other value, which fails the instanceof test in the upload
step. -/
inductive BlobArg where
  | skblob (b : SKBlob)
  | notBlob
deriving DecidableEq

/-- The SendOptions value object for a send: recipients, caption text, display
duration (the timer), and the optional flags. -/
structure SnapOptions where
  recipients : List String
  text : String
  timer : Int
  cameraFrontFacing : Bool := false
  isReply : Bool := false
deriving DecidableEq

/-- Modelled from the spec: SnapOptions construction (src/models/snap-options.js,
not under src/) validates that the display duration is greater than 0 and raises
InvalidArgument otherwise; the duration must be validated, not silently
accepted. -/
def SnapOptions.make (recipients : List String) (text : String) (duration : Int) :
    Except JsError SnapOptions :=
  if duration ≤ 0 then
    Except.error (JsError.invalidArgument "SnapOptions duration must be greater than 0")
  else
    Except.ok { recipients := recipients, text := text, timer := duration }

/-- The transport client's session state, read-only from the facade. -/
structure Session where
  countryCode : String
  addedFriendsTimestamp : Date
deriving DecidableEq

/-- The client's screen dimensions. -/
structure ScreenSize where
  width : Int
  height : Int
deriving DecidableEq

/-- The already-authenticated transport client, with its read-only session
fields as described by the external-interface contract. -/
structure Client where
  username : String
  authToken : String
  googleAuthToken : String
  session : Session
  screenSize : ScreenSize
deriving DecidableEq

/-- The Snap Operations Facade: the constructor stores only the client
reference. -/
structure Snaps where
  client : Client
deriving DecidableEq

/-- The JS property access of session directly on the facade object, as written
in markSnapsViewed: the Snaps constructor sets only the client field, so this
property is undefined on the facade itself; the session object lives at
client.session. -/
def Snaps.selfSession (_self : Snaps) : Option Session := none

/-- The small per-snap record built by markSnapsViewed: wire timestamp and
seconds viewed. -/
structure ViewRec where
  t : Nat
  sv : Int
deriving DecidableEq

/-- The per-snap record built by markSnapScreenshot: int32-coerced timestamp,
seconds viewed, and a status code. -/
structure ScreenshotRec where
  t : Int
  sv : Int
  c : Int
deriving DecidableEq

/-- A lightweight analytics event: name, string parameters, and an
int32-coerced timestamp. -/
structure Event where
  eventName : String
  params : List (String × String)
  ts : Int
deriving DecidableEq

/-- A value placed in a form field of an outgoing request. The json
constructors stand for the JSON.stringify image of the corresponding
structured value. -/
inductive FieldVal where
  | str (s : String)
  | num (n : Int)
  | bool (b : Bool)
  | bytes (bs : List Nat)
  | jsonStrList (xs : List String)
  | jsonViews (m : List (String × ViewRec))
  | jsonEvents (evs : List Event)
  | jsonRecords (m : List (String × ScreenshotRec))
deriving DecidableEq

/-- One call handed to the transport client: the generic post primitive, the
header-carrying postCustom primitive used for multipart uploads, or the
combined analytics-plus-acknowledgement sendEvents path. -/
inductive Request where
  | post (endpoint : String) (fields : List (String × FieldVal))
  | postCustom (endpoint : String) (fields : List (String × FieldVal))
      (headers : List (String × String)) (authToken : String)
  | sendEvents (events : List Event) (snapInfo : List (String × ScreenshotRec))
deriving DecidableEq

/-- The outcome of one facade call: a synchronous throw, a failure delivered on
the asynchronous channel (callback error argument or promise rejection), or a
success value. -/
inductive Outcome (α : Type) where
  | thrown (e : JsError)
  | failed (e : JsError)
  | ok (v : α)
deriving DecidableEq

/-- Whether an outcome is a synchronous throw. -/
def Outcome.isThrown {α : Type} : Outcome α → Bool
  | .thrown _ => true
  | _ => false

/-- Whether an outcome is a failure on the asynchronous channel. -/
def Outcome.isFailed {α : Type} : Outcome α → Bool
  | .failed _ => true
  | _ => false

/-- The server's acknowledgement payload, opaque to this layer. -/
abbrev PostResult := String

/-- A raw response body, opaque to this layer. -/
abbrev Body := List Nat

/-- The number of calls to the generic post primitive directed at the given
endpoint within a request trace. -/
def countPostsTo (ep : String) : List Request → Nat
  | [] => 0
  | Request.post e _ :: rest => (if e = ep then 1 else 0) + countPostsTo ep rest
  | _ :: rest => countPostsTo ep rest

/-- The internal upload step (Snaps.prototype._uploadSnap, src/routes/snaps.js
lines 230-257): generate a media identifier, check the blob is an SKBlob
instance (throwing otherwise), build the multipart params and headers, and issue
postCustom; the callback receives either the transport error or the locally
generated identifier. The oracle uploadErr is the error, if any, with which the
transport answers the upload. -/
def Snaps.uploadSnap (self : Snaps) (blob : BlobArg) (uploadErr : Option JsError) :
    List Request × Outcome String :=
  let uuid := StringUtils.mediaIdentifier self.client.username
  match blob with
  | .notBlob =>
      ([], .thrown (.invalidArgument
        "Snap._uploadSnap invalid argument \"blob\" must be SKBlob instance"))
  | .skblob b =>
      let params : List (String × FieldVal) :=
        [("media_id", .str uuid),
         ("type", .num (if b.isImage then constants.MediaKind.Image.value
                        else constants.MediaKind.Video.value)),
         ("data", .bytes b.data),
         ("zipped", .num 0),
         ("features_map", .str "\x7b\x7d"),
         ("username", .str self.client.username)]
      let headers : List (String × String) :=
        [(constants.headers.clientAuthToken, "Bearer " ++ self.client.googleAuthToken),
         (constants.headers.contentType,
          "multipart/form-data; boundary=" ++ constants.core.boundary)]
      let req := Request.postCustom constants.endpoints.snaps.upload params headers
        self.client.authToken
      match uploadErr with
      | some e => ([req], .failed e)
      | none => ([req], .ok uuid)

/-- The send post built by sendSnapCustom (src/routes/snaps.js lines 62-71). -/
def Snaps.sendPostRequest (self : Snaps) (opts : SnapOptions) (mediaID : String) :
    Request :=
  Request.post constants.endpoints.snaps.send
    [("camera_front_facing", .bool opts.cameraFrontFacing),
     ("country_code", .str self.client.session.countryCode),
     ("media_id", .str mediaID),
     ("recipients", .jsonStrList opts.recipients),
     ("recipient_ids", .jsonStrList opts.recipients),
     ("reply", .bool opts.isReply),
     ("time", .num opts.timer),
     ("zipped", .num 0),
     ("username", .str self.client.username)]

/-- Snaps.prototype.sendSnapCustom (src/routes/snaps.js lines 51-80): run the
upload step inside the promise executor, so a synchronous throw from it becomes
a rejection; on an upload error reject without posting; on success post to the
send endpoint and resolve or reject with the transport's answer. -/
def Snaps.sendSnapCustom (self : Snaps) (blob : BlobArg) (opts : SnapOptions)
    (uploadErr : Option JsError) (sendResult : Except JsError PostResult) :
    List Request × Outcome PostResult :=
  match self.uploadSnap blob uploadErr with
  | (tr, .thrown e) => (tr, .failed e)
  | (tr, .failed e) => (tr, .failed e)
  | (tr, .ok mediaID) =>
      (tr ++ [self.sendPostRequest opts mediaID],
       match sendResult with
       | .error e => .failed e
       | .ok r => .ok r)

/-- Snaps.prototype.sendSnap (src/routes/snaps.js lines 37-42): construct
SnapOptions from the simple arguments, outside any promise, so a construction
error is a synchronous throw, then delegate to sendSnapCustom. -/
def Snaps.sendSnap (self : Snaps) (blob : BlobArg) (recipients : List String)
    (text : String) (duration : Int) (uploadErr : Option JsError)
    (sendResult : Except JsError PostResult) : List Request × Outcome PostResult :=
  match SnapOptions.make recipients text duration with
  | .error e => ([], .thrown e)
  | .ok opts => self.sendSnapCustom blob opts uploadErr sendResult

/-- The per-snap record map built by markSnapsViewed (src/routes/snaps.js lines
111-118), pairing each snap identifier with its wire timestamp and seconds
viewed. -/
def buildViewJson : List Snap → List Date → List Int → List (String × ViewRec)
  | s :: ss, t :: ts, v :: vs =>
      (s.identifier, ⟨StringUtils.timestampFrom t, v⟩) :: buildViewJson ss ts vs
  | _, _, _ => []

/-- Snaps.prototype.markSnapsViewed (src/routes/snaps.js lines 103-125): throw
InvalidArgument synchronously when the three lengths are not all equal; build
the record map; then, while building the post fields, read the session through
the facade itself (not through the client), which is undefined, so the access
of addedFriendsTimestamp throws a TypeError before the post is issued. -/
def Snaps.markSnapsViewed (self : Snaps) (snaps : List Snap) (times : List Date)
    (secondsViewed : List Int) (postResult : Except JsError PostResult) :
    List Request × Outcome PostResult :=
  if snaps.length ≠ times.length ∨ times.length ≠ secondsViewed.length then
    ([], .thrown (.invalidArgument
      "Snaps.markSnapsViewed all arrays must have the same length"))
  else
    let json := buildViewJson snaps times secondsViewed
    match self.selfSession with
    | none =>
        ([], .thrown (.typeError
          "Cannot read property addedFriendsTimestamp of undefined"))
    | some sess =>
        let req := Request.post constants.endpoints.update.snaps
          [("added_friends_timestamp",
             .num (StringUtils.timestampFrom sess.addedFriendsTimestamp : Int)),
           ("username", .str self.client.username),
           ("json", .jsonViews json)]
        ([req],
         match postResult with
         | .error e => .failed e
         | .ok r => .ok r)

/-- Snaps.prototype.markSnapViewed (src/routes/snaps.js lines 88-93): record a
single view at the current time, delegating to markSnapsViewed on singleton
sequences. The oracle now stands for the Date constructed at call time. -/
def Snaps.markSnapViewed (self : Snaps) (snap : Snap) (secondsViewed : Int)
    (now : Date) (postResult : Except JsError PostResult) :
    List Request × Outcome PostResult :=
  self.markSnapsViewed [snap] [now] [secondsViewed] postResult

/-- Snaps.prototype.markSnapScreenshot (src/routes/snaps.js lines 133-155):
build the screenshot-tagged record from a first wire timestamp, build the
analytics event with a second wire timestamp, each coerced with bitwise-or
zero, and hand both to the client's sendEvents path in one call. The oracles
ts1 and ts2 are the two successive wire timestamps read at call time. -/
def Snaps.markSnapScreenshot (_self : Snaps) (snap : Snap) (secondsViewed : Int)
    (ts1 ts2 : Nat) (sendResult : Except JsError PostResult) :
    List Request × Outcome PostResult :=
  let snapInfo : List (String × ScreenshotRec) :=
    [(snap.identifier,
      { t := jsToInt32 ts1, sv := secondsViewed, c := constants.SnapStatus.Screenshot })]
  let screenshot : Event :=
    { eventName := "SNAP_SCREENSHOT",
      params := [("id", snap.identifier)],
      ts := jsToInt32 ts2 }
  ([Request.sendEvents [screenshot] snapInfo],
   match sendResult with
   | .error e => .failed e
   | .ok r => .ok r)

/-- The private load step (Snaps.prototype._loadSnapWithIdentifier,
src/routes/snaps.js lines 203-223): post the identifier and username to the
load-blob endpoint, then decode the body into an SKBlob; reject on a transport
error or a decode error. The oracle decodeResult is what SKBlob.initWithData
answers on the returned body. -/
def Snaps.loadSnapWithIdentifier (self : Snaps) (identifier : String)
    (postResult : Except JsError Body) (decodeResult : Except JsError SKBlob) :
    List Request × Outcome SKBlob :=
  let req := Request.post constants.endpoints.snaps.loadBlob
    [("id", .str identifier), ("username", .str self.client.username)]
  ([req],
   match postResult with
   | .error e => .failed e
   | .ok _ =>
     match decodeResult with
     | .error e => .failed e
     | .ok blob => .ok blob)

/-- Snaps.prototype.loadSnap (src/routes/snaps.js lines 163-168): load by the
snap's identifier. -/
def Snaps.loadSnap (self : Snaps) (snap : Snap) (postResult : Except JsError Body)
    (decodeResult : Except JsError SKBlob) : List Request × Outcome SKBlob :=
  self.loadSnapWithIdentifier snap.identifier postResult decodeResult

/-- A latitude/longitude pair handed to the filter query. -/
structure Location where
  lat : Int
  lng : Int
deriving DecidableEq

/-- The raw decoded response object of the location-data endpoint. -/
structure LocationResult where
  lat : Int
  lng : Int
  extra : List (String × String)
deriving DecidableEq

/-- The parsed LocationFilterSet model, constructed from a raw response
object. -/
structure SKLocation where
  raw : LocationResult
deriving DecidableEq

/-- Modelled from the spec: the LocationFilterSet parser (src/models/location.js,
not under src/) constructs directly from a raw decoded response object. -/
def SKLocation.ofResult (r : LocationResult) : SKLocation := ⟨r⟩

/-- Snaps.prototype.loadFiltersForLocation (src/routes/snaps.js lines 176-198):
post the coordinates, the client's screen dimensions and the username; surface
a transport error unchanged; on a falsy result reject with the parse error;
otherwise resolve with the SKLocation constructed from the result. The oracle
models the transport answer, with the inner Option capturing a null or empty
result. -/
def Snaps.loadFiltersForLocation (self : Snaps) (location : Location)
    (postResult : Except JsError (Option LocationResult)) :
    List Request × Outcome SKLocation :=
  let req := Request.post constants.endpoints.misc.locationData
    [("lat", .num location.lat),
     ("lng", .num location.lng),
     ("screen_width", .num self.client.screenSize.width),
     ("screen_height", .num self.client.screenSize.height),
     ("username", .str self.client.username)]
  ([req],
   match postResult with
   | .error e => .failed e
   | .ok (some result) => .ok (SKLocation.ofResult result)
   | .ok none => .failed (.parseError "Snaps.loadFiltersForLocation parse error"))

/-- Modelled from the spec: the transport client's sendEvents primitive
(src/lib/client.js, not under src/) serializes the events and the view-record
map into one post whose fields include the session's username, per the
invariant that every outgoing request carries it. -/
def Client.sendEventsPayload (client : Client) (events : List Event)
    (snapInfo : List (String × ScreenshotRec)) : List (String × FieldVal) :=
  [("events", .jsonEvents events),
   ("json", .jsonRecords snapInfo),
   ("username", .str client.username)]

/-- The form fields of one outgoing request: for the post primitives these are
the fields built by the facade, for sendEvents the payload assembled by the
transport client. -/
def Request.payload (client : Client) : Request → List (String × FieldVal)
  | .post _ fields => fields
  | .postCustom _ fields _ _ => fields
  | .sendEvents events snapInfo => client.sendEventsPayload events snapInfo

/-- Whether a form field is the username field carrying the given username. -/
def fieldIsUsername (u : String) (f : String × FieldVal) : Bool :=
  decide (f.1 = "username") && decide (f.2 = FieldVal.str u)

/-- Whether a request's payload contains the session username. -/
def Request.hasUsername (client : Client) (r : Request) : Bool :=
  (Request.payload client r).any (fieldIsUsername client.username)

/-- A concrete client used to exercise the facade on closed inputs. -/
def exClient : Client :=
  { username := "alice",
    authToken := "atok",
    googleAuthToken := "gtok",
    session := { countryCode := "US", addedFriendsTimestamp := 1000 },
    screenSize := { width := 320, height := 568 } }

/-- A concrete facade instance. -/
def exSnaps : Snaps := { client := exClient }

/-- A concrete snap. -/
def exSnap : Snap := { identifier := "s1" }

/-- A concrete image blob. -/
def exBlob : SKBlob := { isImage := true, data := [1, 2, 3] }

/-- C1: for every blob and options, if the internal upload step of
sendSnapCustom fails with some error e (on its callback, or by its synchronous
instanceof throw, which the promise executor turns into a rejection), then
sendSnapCustom fails with exactly e and the post primitive is never invoked for
the send endpoint. -/
theorem sendSnapCustom_upload_failure_short_circuits (self : Snaps) (blob : BlobArg)
    (opts : SnapOptions) (uploadErr : Option JsError)
    (sendResult : Except JsError PostResult) (e : JsError)
    (h : (self.uploadSnap blob uploadErr).2 = Outcome.failed e ∨
         (self.uploadSnap blob uploadErr).2 = Outcome.thrown e) :
    (self.sendSnapCustom blob opts uploadErr sendResult).2 = Outcome.failed e ∧
    countPostsTo constants.endpoints.snaps.send
      (self.sendSnapCustom blob opts uploadErr sendResult).1 = 0 := by
  cases blob <;> cases uploadErr <;>
    simp_all [Snaps.uploadSnap, Snaps.sendSnapCustom, countPostsTo]

/-- C1 witness: a concrete transport failure of the upload step propagates
unchanged through sendSnapCustom and no post reaches the send endpoint. -/
theorem sendSnapCustom_upload_failure_short_circuits_witness :
    ((exSnaps.uploadSnap (BlobArg.skblob exBlob) (some (JsError.transport 500))).2 =
       Outcome.failed (JsError.transport 500) ∨
     (exSnaps.uploadSnap (BlobArg.skblob exBlob) (some (JsError.transport 500))).2 =
       Outcome.thrown (JsError.transport 500)) ∧
    ((exSnaps.sendSnapCustom (BlobArg.skblob exBlob)
        { recipients := ["bob"], text := "hi", timer := 5 }
        (some (JsError.transport 500)) (Except.ok "ack")).2 =
       Outcome.failed (JsError.transport 500) ∧
     countPostsTo constants.endpoints.snaps.send
       (exSnaps.sendSnapCustom (BlobArg.skblob exBlob)
         { recipients := ["bob"], text := "hi", timer := 5 }
         (some (JsError.transport 500)) (Except.ok "ack")).1 = 0) :=
  ⟨Or.inl rfl,
   sendSnapCustom_upload_failure_short_circuits exSnaps (BlobArg.skblob exBlob)
     { recipients := ["bob"], text := "hi", timer := 5 }
     (some (JsError.transport 500)) (Except.ok "ack") (JsError.transport 500)
     (Or.inl rfl)⟩

/-- C2: for every duration at most 0, sendSnap fails with InvalidArgument
while handing nothing to the transport client, and no SnapOptions value can be
constructed with that duration, so the claim also covers sendSnapCustom
vacuously. -/
theorem sendSnap_nonpositive_duration_invalid (self : Snaps) (blob : BlobArg)
    (recipients : List String) (text : String) (duration : Int)
    (uploadErr : Option JsError) (sendResult : Except JsError PostResult)
    (h : duration ≤ 0) :
    self.sendSnap blob recipients text duration uploadErr sendResult =
      ([], Outcome.thrown (JsError.invalidArgument
        "SnapOptions duration must be greater than 0")) ∧
    ∀ opts : SnapOptions, SnapOptions.make recipients text duration ≠ Except.ok opts := by
  unfold Snaps.sendSnap SnapOptions.make
  rw [if_pos h]
  simp

/-- C2 witness: duration 0 is rejected with InvalidArgument and the transport
client is never handed a request. -/
theorem sendSnap_nonpositive_duration_invalid_witness :
    (0 : Int) ≤ 0 ∧
    (exSnaps.sendSnap (BlobArg.skblob exBlob) ["bob"] "hi" 0 none (Except.ok "ack") =
       ([], Outcome.thrown (JsError.invalidArgument
         "SnapOptions duration must be greater than 0")) ∧
     ∀ opts : SnapOptions, SnapOptions.make ["bob"] "hi" 0 ≠ Except.ok opts) :=
  ⟨le_refl 0,
   sendSnap_nonpositive_duration_invalid exSnaps (BlobArg.skblob exBlob)
     ["bob"] "hi" 0 none (Except.ok "ack") (le_refl 0)⟩

/-- C3: whenever the three input sequences do not all have the same length,
markSnapsViewed fails with InvalidArgument and hands the transport client no
request at all. -/
theorem markSnapsViewed_length_mismatch_invalid (self : Snaps) (snaps : List Snap)
    (times : List Date) (secondsViewed : List Int)
    (postResult : Except JsError PostResult)
    (h : ¬(snaps.length = times.length ∧ times.length = secondsViewed.length)) :
    self.markSnapsViewed snaps times secondsViewed postResult =
      ([], Outcome.thrown (JsError.invalidArgument
        "Snaps.markSnapsViewed all arrays must have the same length")) := by
  unfold Snaps.markSnapsViewed
  rw [if_pos (by omega)]

/-- C3 witness: one snap against empty times and seconds sequences is rejected
with InvalidArgument and no request is issued. -/
theorem markSnapsViewed_length_mismatch_invalid_witness :
    ¬(([exSnap].length = ([] : List Date).length ∧
       ([] : List Date).length = ([] : List Int).length)) ∧
    exSnaps.markSnapsViewed [exSnap] [] [] (Except.ok "ack") =
      ([], Outcome.thrown (JsError.invalidArgument
        "Snaps.markSnapsViewed all arrays must have the same length")) :=
  ⟨by decide,
   markSnapsViewed_length_mismatch_invalid exSnaps [exSnap] [] [] (Except.ok "ack")
     (by decide)⟩

/-- C4: with equal-length inputs, markSnapsViewed reads the session through the
facade object itself, where it is undefined, instead of through the transport
client, so the call throws a TypeError and the post carrying the added-friends
timestamp, username and record map is never issued. -/
theorem markSnapsViewed_session_read_crashes (self : Snaps) (snaps : List Snap)
    (times : List Date) (secondsViewed : List Int)
    (postResult : Except JsError PostResult)
    (h : snaps.length = times.length ∧ times.length = secondsViewed.length) :
    self.markSnapsViewed snaps times secondsViewed postResult =
      ([], Outcome.thrown (JsError.typeError
        "Cannot read property addedFriendsTimestamp of undefined")) := by
  unfold Snaps.markSnapsViewed
  rw [if_neg (by omega)]
  simp [Snaps.selfSession]

/-- C4 witness: a well-formed singleton acknowledgement crashes with the
TypeError and issues no request. -/
theorem markSnapsViewed_session_read_crashes_witness :
    ([exSnap].length = [(1000 : Date)].length ∧
     [(1000 : Date)].length = [(5 : Int)].length) ∧
    exSnaps.markSnapsViewed [exSnap] [1000] [5] (Except.ok "ack") =
      ([], Outcome.thrown (JsError.typeError
        "Cannot read property addedFriendsTimestamp of undefined")) :=
  ⟨by decide,
   markSnapsViewed_session_read_crashes exSnaps [exSnap] [1000] [5] (Except.ok "ack")
     (by decide)⟩

/-- C5 counterexample: markSnapsViewed with mismatched lengths delivers its
InvalidArgument by a synchronous throw, never reaching the asynchronous failure
channel, refuting the claim that every failure of every operation uses that
channel. -/
theorem markSnapsViewed_sync_throw_counterexample :
    (exSnaps.markSnapsViewed [exSnap] [] [] (Except.ok "ack")).2 =
      Outcome.thrown (JsError.invalidArgument
        "Snaps.markSnapsViewed all arrays must have the same length") ∧
    (exSnaps.markSnapsViewed [exSnap] [] [] (Except.ok "ack")).2.isFailed = false :=
  ⟨rfl, rfl⟩

/-- C5 amended: sendSnapCustom, markSnapScreenshot, loadSnap and
loadFiltersForLocation deliver every failure through the asynchronous channel
and never throw synchronously, and they propagate transport errors rather than
dropping them; markSnapsViewed instead delivers its failures by synchronous
throw and never uses the asynchronous channel. -/
theorem facade_error_channels (self : Snaps) (blob : BlobArg) (opts : SnapOptions)
    (uploadErr : Option JsError) (sendResult : Except JsError PostResult)
    (snap : Snap) (sv : Int) (ts1 ts2 : Nat) (evResult : Except JsError PostResult)
    (postBody : Except JsError Body) (decodeResult : Except JsError SKBlob)
    (location : Location) (locResult : Except JsError (Option LocationResult))
    (snaps : List Snap) (times : List Date) (seconds : List Int)
    (viewResult : Except JsError PostResult) (e : JsError) :
    (self.sendSnapCustom blob opts uploadErr sendResult).2.isThrown = false ∧
    (self.markSnapScreenshot snap sv ts1 ts2 evResult).2.isThrown = false ∧
    (self.loadSnap snap postBody decodeResult).2.isThrown = false ∧
    (self.loadFiltersForLocation location locResult).2.isThrown = false ∧
    (self.markSnapsViewed snaps times seconds viewResult).2.isFailed = false ∧
    (self.markSnapScreenshot snap sv ts1 ts2 (Except.error e)).2 = Outcome.failed e ∧
    (self.loadFiltersForLocation location (Except.error e)).2 = Outcome.failed e ∧
    (self.loadSnap snap (Except.error e) decodeResult).2 = Outcome.failed e := by
  refine ⟨?_, ?_, ?_, ?_, ?_, ?_, ?_, ?_⟩
  · cases blob <;> cases uploadErr <;> cases sendResult <;>
      simp [Snaps.uploadSnap, Snaps.sendSnapCustom, Outcome.isThrown]
  · cases evResult <;> simp [Snaps.markSnapScreenshot, Outcome.isThrown]
  · cases postBody <;> cases decodeResult <;>
      simp [Snaps.loadSnap, Snaps.loadSnapWithIdentifier, Outcome.isThrown]
  · rcases locResult with e | r
    · simp [Snaps.loadFiltersForLocation, Outcome.isThrown]
    · cases r <;> simp [Snaps.loadFiltersForLocation, Outcome.isThrown]
  · unfold Snaps.markSnapsViewed
    split
    · simp [Outcome.isFailed]
    · simp [Snaps.selfSession, Outcome.isFailed]
  · rfl
  · rfl
  · rfl

/-- C6: markSnapViewed delegates to markSnapsViewed on singleton sequences
built from the same current time, so the two calls hand the transport client
identical requests and produce the same outcome. -/
theorem markSnapViewed_eq_singleton_batch (self : Snaps) (snap : Snap) (sv : Int)
    (now : Date) (postResult : Except JsError PostResult) :
    self.markSnapViewed snap sv now postResult =
      self.markSnapsViewed [snap] [now] [sv] postResult := rfl

/-- C7: loadFiltersForLocation surfaces a transport error unchanged, fails with
the parse error on a falsy result, and on a non-empty result resolves with
exactly the LocationFilterSet constructed directly from that result object. -/
theorem loadFiltersForLocation_result_handling (self : Snaps) (location : Location) :
    (∀ e : JsError,
      (self.loadFiltersForLocation location (Except.error e)).2 = Outcome.failed e) ∧
    (self.loadFiltersForLocation location (Except.ok none)).2 =
      Outcome.failed (JsError.parseError "Snaps.loadFiltersForLocation parse error") ∧
    (∀ r : LocationResult,
      (self.loadFiltersForLocation location (Except.ok (some r))).2 =
        Outcome.ok (SKLocation.ofResult r)) :=
  ⟨fun _ => rfl, rfl, fun _ => rfl⟩

/-- C8: markSnapScreenshot hands the client, in one single sendEvents call, the
SNAP_SCREENSHOT event carrying the snap identifier and an int32 timestamp
together with the record map binding the identifier to an int32 timestamp, the
seconds viewed, and the screenshot status code. -/
theorem markSnapScreenshot_single_call_payload (self : Snaps) (snap : Snap)
    (sv : Int) (ts1 ts2 : Nat) (res : Except JsError PostResult) :
    (self.markSnapScreenshot snap sv ts1 ts2 res).1 =
      [Request.sendEvents
        [{ eventName := "SNAP_SCREENSHOT",
           params := [("id", snap.identifier)],
           ts := jsToInt32 ts2 }]
        [(snap.identifier,
          { t := jsToInt32 ts1, sv := sv, c := constants.SnapStatus.Screenshot })]] := rfl

/-- C9: every request handed to the transport client by any facade operation
carries the session's username in its payload. -/
theorem every_request_includes_username (self : Snaps) (blob : BlobArg)
    (opts : SnapOptions) (recipients : List String) (text : String) (duration : Int)
    (uploadErr : Option JsError) (sendResult : Except JsError PostResult)
    (snap : Snap) (sv : Int) (ts1 ts2 : Nat) (evResult : Except JsError PostResult)
    (postBody : Except JsError Body) (decodeResult : Except JsError SKBlob)
    (location : Location) (locResult : Except JsError (Option LocationResult))
    (snaps : List Snap) (times : List Date) (seconds : List Int)
    (viewResult : Except JsError PostResult) :
    (self.sendSnapCustom blob opts uploadErr sendResult).1.all
        (Request.hasUsername self.client) = true ∧
    (self.sendSnap blob recipients text duration uploadErr sendResult).1.all
        (Request.hasUsername self.client) = true ∧
    (self.uploadSnap blob uploadErr).1.all (Request.hasUsername self.client) = true ∧
    (self.markSnapsViewed snaps times seconds viewResult).1.all
        (Request.hasUsername self.client) = true ∧
    (self.markSnapScreenshot snap sv ts1 ts2 evResult).1.all
        (Request.hasUsername self.client) = true ∧
    (self.loadSnap snap postBody decodeResult).1.all
        (Request.hasUsername self.client) = true ∧
    (self.loadFiltersForLocation location locResult).1.all
        (Request.hasUsername self.client) = true := by
  have hupload : (self.uploadSnap blob uploadErr).1.all
      (Request.hasUsername self.client) = true := by
    cases blob <;> cases uploadErr <;>
      simp [Snaps.uploadSnap, Request.hasUsername, Request.payload, fieldIsUsername]
  have hcustom : ∀ o : SnapOptions, (self.sendSnapCustom blob o uploadErr sendResult).1.all
      (Request.hasUsername self.client) = true := by
    intro o
    cases blob <;> cases uploadErr <;>
      simp [Snaps.uploadSnap, Snaps.sendSnapCustom, Snaps.sendPostRequest,
        Request.hasUsername, Request.payload, fieldIsUsername]
  refine ⟨hcustom opts, ?_, hupload, ?_, ?_, ?_, ?_⟩
  · unfold Snaps.sendSnap SnapOptions.make
    split
    · simp
    · exact hcustom _
  · unfold Snaps.markSnapsViewed
    split
    · simp
    · simp [Snaps.selfSession]
  · simp [Snaps.markSnapScreenshot, Request.hasUsername, Request.payload,
      Client.sendEventsPayload, fieldIsUsername]
  · simp [Snaps.loadSnap, Snaps.loadSnapWithIdentifier, Request.hasUsername,
      Request.payload, fieldIsUsername]
  · simp [Snaps.loadFiltersForLocation, Request.hasUsername, Request.payload,
      fieldIsUsername]

/-- C10: in markSnapScreenshot both the record timestamp t and the event
timestamp ts are the respective wire timestamps coerced by bitwise-or zero,
that is, reduced modulo 2^32 and reinterpreted as signed 32-bit integers
(congruent to the wire value modulo 2^32 and lying in the signed 32-bit
range), not the full millisecond values: a wire timestamp of 2^32 + 5 is sent
as 5. -/
theorem markSnapScreenshot_timestamps_are_int32 (self : Snaps) (snap : Snap)
    (sv : Int) (ts1 ts2 : Nat) (res : Except JsError PostResult) :
    (self.markSnapScreenshot snap sv ts1 ts2 res).1 =
      [Request.sendEvents
        [{ eventName := "SNAP_SCREENSHOT",
           params := [("id", snap.identifier)],
           ts := jsToInt32 ts2 }]
        [(snap.identifier,
          { t := jsToInt32 ts1, sv := sv,
            c := constants.SnapStatus.Screenshot })]] ∧
    (∀ n : Nat, jsToInt32 n % 2 ^ 32 = (n : Int) % 2 ^ 32 ∧
      -(2 ^ 31) ≤ jsToInt32 n ∧ jsToInt32 n < 2 ^ 31) ∧
    jsToInt32 (2 ^ 32 + 5) = 5 ∧ ((2 ^ 32 + 5 : Nat) : Int) ≠ 5 := by
  refine ⟨rfl, fun n => ?_, by decide, by decide⟩
  unfold jsToInt32
  split <;> refine ⟨?_, ?_, ?_⟩ <;> omega
